import Mathlib

/-!
Verification of the WebAuthn client ceremony orchestration
(`src/public/client.js`).

The JavaScript module is shallowly embedded as pure Lean functions.
Asynchronous effects (network requests, the platform credential
capability, `localStorage`, `console.info`) are made explicit:

* every server response and every platform-capability outcome is
  supplied by an environment record;
* each exported operation returns the computed result together with the
  final storage contents and the ordered list of effects it performed.

Binary buffers are `List Nat` (byte values); text-encoded binary uses a
url-safe base64 codec modelled from the spec (the `base64url` library
loaded by the page is not part of the repository sources).
-/

/-- Binary data, a list of byte values. -/
abbrev Bin := List Nat

/-! ## Binary codec (url-safe base64)

Modelled from the spec: `decode(text) -> Binary` fails when the input
contains characters outside the url-safe-base64 alphabet, and
`encode(binary) -> UrlSafeBase64` is its inverse (unpadded alphabet
`A-Z a-z 0-9 - _`). -/

/-- Value of one url-safe base64 alphabet character, `none` when the
character is outside the alphabet. -/
def b64CharVal (c : Char) : Option Nat :=
  if 65 ≤ c.toNat ∧ c.toNat ≤ 90 then some (c.toNat - 65)
  else if 97 ≤ c.toNat ∧ c.toNat ≤ 122 then some (c.toNat - 97 + 26)
  else if 48 ≤ c.toNat ∧ c.toNat ≤ 57 then some (c.toNat - 48 + 52)
  else if c = '-' then some 62
  else if c = '_' then some 63
  else none

/-- Map every character through `b64CharVal`, failing on the first
character outside the alphabet. -/
def b64Vals : List Char → Option (List Nat)
  | [] => some []
  | c :: rest =>
    match b64CharVal c, b64Vals rest with
    | some v, some vs => some (v :: vs)
    | _, _ => none

/-- Reassemble bytes from 6-bit groups; a trailing group of a single
sextet is malformed. -/
def sextetsToBytes : List Nat → Option Bin
  | [] => some []
  | [_] => none
  | [a, b] => some [a * 4 + b / 16]
  | [a, b, c] => some [a * 4 + b / 16, b % 16 * 16 + c / 4]
  | a :: b :: c :: d :: rest =>
    match sextetsToBytes rest with
    | some t => some ((a * 4 + b / 16) :: (b % 16 * 16 + c / 4) :: (c % 4 * 64 + d) :: t)
    | none => none

/-- Url-safe base64 decoding: text to binary, `none` on malformed input. -/
def base64urlDecode (s : String) : Option Bin :=
  match b64Vals s.toList with
  | some vals => sextetsToBytes vals
  | none => none

/-- Alphabet character of a 6-bit value. -/
def b64Char (n : Nat) : Char :=
  if n < 26 then Char.ofNat (65 + n)
  else if n < 52 then Char.ofNat (97 + n - 26)
  else if n < 62 then Char.ofNat (48 + n - 52)
  else if n = 62 then '-'
  else '_'

/-- Split bytes into 6-bit groups. -/
def bytesToSextets : List Nat → List Nat
  | [] => []
  | [a] => [a / 4, a % 4 * 16]
  | [a, b] => [a / 4, a % 4 * 16 + b / 16, b % 16 * 4]
  | a :: b :: c :: rest =>
    (a / 4) :: (a % 4 * 16 + b / 16) :: (b % 16 * 4 + c / 64) :: (c % 64) :: bytesToSextets rest

/-- Url-safe base64 encoding: binary to text (unpadded). -/
def base64urlEncode (b : Bin) : String :=
  String.mk ((bytesToSextets b).map b64Char)

/-! ## JSON values

Bodies crossing the transport boundary are JSON; this is the value form
of the parsed bodies. -/

/-- A parsed JSON value. -/
inductive JsonV where
  | str (s : String)
  | num (n : Int)
  | bool (b : Bool)
  | null
  | arr (elems : List JsonV)
  | obj (fields : List (String × JsonV))

/-- Field access `v.k` on a parsed JSON value: `none` stands for the
JavaScript `undefined` (non-object value or absent field). -/
def jgetField (v : JsonV) (key : String) : Option JsonV :=
  match v with
  | .obj fields => (fields.find? (fun p => p.1 == key)).map (fun p => p.2)
  | _ => none

/-! ## Thrown values -/

/-- Values thrown by the client code: the `error` field of a non-200
response body (`none` when the field is absent), a url-safe base64
decode failure on the given input, or a platform-capability rejection
reason re-raised unchanged. -/
inductive JsErr where
  | transport (e : Option JsonV)
  | malformedEncoding (input : String)
  | platform (reason : String)

/-- True exactly on the decode-failure error kind. -/
def isMalformedErr : JsErr → Bool
  | .malformedEncoding _ => true
  | _ => false

/-- Whether a computation outcome is a decode-failure rejection. -/
def resultIsMalformed (r : Except JsErr JsonV) : Bool :=
  match r with
  | .error e => isMalformedErr e
  | .ok _ => false

/-! ## Storage (`localStorage`) -/

/-- The key-value store backing `localStorage`. -/
abbrev Storage := List (String × String)

/-- Embedding of `localStorage.getItem`. -/
def storageGetItem (st : Storage) (key : String) : Option String :=
  (st.find? (fun p => p.1 == key)).map (fun p => p.2)

/-- Embedding of `localStorage.setItem`: last write wins for the key. -/
def storageSetItem (st : Storage) (key value : String) : Storage :=
  (key, value) :: st.filter (fun p => !(p.1 == key))

/-- Embedding of `localStorage.removeItem`. -/
def storageRemoveItem (st : Storage) (key : String) : Storage :=
  st.filter (fun p => !(p.1 == key))

/-! ## Transport adapter (`_fetch`, client.js lines 17-39) -/

/-- The request `_fetch` hands to the `fetch` API. `body = none` stands
for the default empty-string payload (no serialized JSON body); the
`FormData` branch of the source is dead in this module, every payload is
either absent or a JSON object. -/
structure FetchRequest where
  path : String
  method : String
  xRequestedWith : Bool
  contentTypeJson : Bool
  body : Option JsonV

/-- An HTTP response as seen after `res.json()`: a status code and the
parsed JSON body. -/
structure HttpResponse where
  status : Nat
  body : JsonV

/-- Request construction of `_fetch`: always a POST with the
`X-Requested-With` marker and same-origin credentials; a present
payload is serialized to JSON with a `Content-Type` marker. -/
def fetchRequestOf (path : String) (payload : Option JsonV) : FetchRequest :=
  { path := path
    method := "POST"
    xRequestedWith := true
    contentTypeJson := payload.isSome
    body := payload }

/-- Embedding of `_fetch`, parameterized by the response the server
gives: returns the emitted request together with the outcome — the
parsed body on status 200, otherwise a rejection with the body `error`
field. -/
def _fetch (path : String) (payload : Option JsonV) (res : HttpResponse) :
    FetchRequest × Except JsErr JsonV :=
  (fetchRequestOf path payload,
   if res.status = 200 then Except.ok res.body
   else Except.error (JsErr.transport (jgetField res.body "error")))

/-! ## encodeURIComponent -/

/-- Characters `encodeURIComponent` leaves unescaped. -/
def isUriUnreserved (c : Char) : Bool :=
  (65 ≤ c.toNat && c.toNat ≤ 90) || (97 ≤ c.toNat && c.toNat ≤ 122) ||
  (48 ≤ c.toNat && c.toNat ≤ 57) ||
  c == '-' || c == '_' || c == '.' || c == '!' || c == '~' ||
  c == '*' || c == Char.ofNat 39 || c == '(' || c == ')'

/-- Uppercase hexadecimal digit. -/
def toHexDigit (n : Nat) : Char :=
  if n < 10 then Char.ofNat (48 + n) else Char.ofNat (55 + n)

/-- Percent-encoding of one byte. -/
def percentByte (b : Nat) : String :=
  "%" ++ String.singleton (toHexDigit (b / 16)) ++ String.singleton (toHexDigit (b % 16))

/-- UTF-8 bytes of one character. -/
def utf8Bytes (c : Char) : List Nat :=
  let n := c.toNat
  if n < 128 then [n]
  else if n < 2048 then [192 + n / 64, 128 + n % 64]
  else if n < 65536 then [224 + n / 4096, 128 + n / 64 % 64, 128 + n % 64]
  else [240 + n / 262144, 128 + n / 4096 % 64, 128 + n / 64 % 64, 128 + n % 64]

/-- Embedding of the `encodeURIComponent` builtin. -/
def encodeURIComponent (s : String) : String :=
  String.join (s.toList.map (fun c =>
    if isUriUnreserved c then String.singleton c
    else String.join ((utf8Bytes c).map percentByte)))

/-! ## Ceremony data model

The orchestrator touches only a few fields of the server-issued options
and of the platform-issued credential; those fields are typed here. The
in-place mutation of the JavaScript (`options.user.id =
base64url.decode(options.user.id)`) is embedded as a pair of record
types — the wire form with text-encoded fields and the decoded form
with binary fields. -/

/-- Registration options as returned by `/auth/registerRequest` (wire
form): `user.id`, `challenge`, and the identifiers of the entries of the
optional `excludeCredentials` array. -/
structure RegOptionsW where
  userId : String
  challenge : String
  excludeCredentials : Option (List String)
deriving DecidableEq

/-- Registration options after in-place decoding, as handed to
`navigator.credentials.create`. -/
structure RegOptionsD where
  userId : Bin
  challenge : Bin
  excludeCredentials : Option (List Bin)
deriving DecidableEq

/-- Authentication options as returned by `/auth/signinRequest` (wire
form): `challenge` and the identifiers of the `allowCredentials`
entries. -/
structure AuthOptionsW where
  challenge : String
  allowCredentials : List String
deriving DecidableEq

/-- Authentication options after in-place decoding, as handed to
`navigator.credentials.get`. -/
structure AuthOptionsD where
  challenge : Bin
  allowCredentials : List Bin
deriving DecidableEq

/-- The attestation response bundle of a created credential. -/
structure AttestationResponse where
  clientDataJSON : Bin
  attestationObject : Bin
deriving DecidableEq

/-- Result of `navigator.credentials.create`; `response` is optional
because the code guards on `if (cred.response)`. -/
structure CreatedCredential where
  id : String
  rawId : Bin
  type : String
  response : Option AttestationResponse
deriving DecidableEq

/-- The assertion response bundle of an obtained credential. -/
structure AssertionResponse where
  clientDataJSON : Bin
  authenticatorData : Bin
  signature : Bin
  userHandle : Bin
deriving DecidableEq

/-- Result of `navigator.credentials.get`; `response` is optional
because the code guards on `if (cred.response)`. -/
structure ObtainedCredential where
  id : String
  type : String
  rawId : Bin
  response : Option AssertionResponse
deriving DecidableEq

/-! ## Observable effects -/

/-- One observable effect of a ceremony, in program order: a transport
request (path and optional JSON payload), a storage operation, a
platform-capability invocation, or a console message. -/
inductive Effect where
  | fetch (path : String) (payload : Option JsonV)
  | storageSetItem (key value : String)
  | storageRemoveItem (key : String)
  | storageGetItem (key : String)
  | platformCreate (options : RegOptionsD)
  | platformGet (options : AuthOptionsD)
  | consoleInfo (message : String)

/-- Outcome of one exported operation: the resolved or rejected value,
the final storage contents, and the ordered effect trace. -/
structure RunResult (α : Type) where
  result : Except JsErr α
  storage : Storage
  trace : List Effect

/-- The transport requests of a trace, in order. -/
def fetchCalls (tr : List Effect) : List (String × Option JsonV) :=
  tr.filterMap (fun e => match e with
    | .fetch path payload => some (path, payload)
    | _ => none)

/-- The storage writes of a trace, in order. -/
def setItemCalls (tr : List Effect) : List (String × String) :=
  tr.filterMap (fun e => match e with
    | .storageSetItem k v => some (k, v)
    | _ => none)

/-- The `navigator.credentials.create` invocations of a trace. -/
def platformCreateCalls (tr : List Effect) : List RegOptionsD :=
  tr.filterMap (fun e => match e with
    | .platformCreate o => some o
    | _ => none)

/-- The `navigator.credentials.get` invocations of a trace. -/
def platformGetCalls (tr : List Effect) : List AuthOptionsD :=
  tr.filterMap (fun e => match e with
    | .platformGet o => some o
    | _ => none)

/-! ## Decoding steps -/

/-- Decode one text field to binary, throwing the decode failure
(client.js calls `base64url.decode`, which raises on malformed
input). -/
def decodeField (s : String) : Except JsErr Bin :=
  match base64urlDecode s with
  | some b => Except.ok b
  | none => Except.error (JsErr.malformedEncoding s)

/-- Decode a list of credential identifiers in order, aborting at the
first failure (the `for (let cred of ...) cred.id = base64url.decode(cred.id)`
loops). -/
def decodeCredIds : List String → Except JsErr (List Bin)
  | [] => Except.ok []
  | c :: rest => do
    let b ← decodeField c
    let bs ← decodeCredIds rest
    Except.ok (b :: bs)

/-- The in-place decoding of the registration options (client.js lines
72-78): `user.id`, then `challenge`, then each `excludeCredentials`
identifier when that array is present. -/
def decodeRegOptions (o : RegOptionsW) : Except JsErr RegOptionsD := do
  let uid ← decodeField o.userId
  let ch ← decodeField o.challenge
  match o.excludeCredentials with
  | none => Except.ok { userId := uid, challenge := ch, excludeCredentials := none }
  | some creds => do
    let ids ← decodeCredIds creds
    Except.ok { userId := uid, challenge := ch, excludeCredentials := some ids }

/-! ## Registration flow (`registerCredential`, client.js lines 46-106) -/

/-- The ceremony-parameters object literal submitted to
`/auth/registerRequest` (client.js lines 47-66). The source spells the
resident-key field `requireResistantKey`. -/
def registerRequestOpts : JsonV :=
  JsonV.obj
    [("attestation", JsonV.str "none"),
     ("authenticatorSelection", JsonV.obj
       [("authenticatorAttachment", JsonV.str "platform"),
        ("userVerification", JsonV.str "required"),
        ("requireResistantKey", JsonV.bool false)])]

/-- The re-encoded attestation response bundle (string fields). -/
structure AttestationResponseW where
  clientDataJSON : String
  attestationObject : String
deriving DecidableEq

/-- The verification payload assembled from a created credential
(client.js lines 88-99). -/
structure RegPayload where
  id : String
  rawId : String
  type : String
  response : Option AttestationResponseW
deriving DecidableEq

/-- Re-encode the created credential to the verification payload:
`id` and `type` are copied, `rawId` and the response bundle fields are
text-encoded; the `response` field is set only when the bundle is
present. -/
def encodeRegCredential (cred : CreatedCredential) : RegPayload :=
  { id := cred.id
    rawId := base64urlEncode cred.rawId
    type := cred.type
    response := cred.response.map (fun r =>
      { clientDataJSON := base64urlEncode r.clientDataJSON
        attestationObject := base64urlEncode r.attestationObject }) }

/-- The JSON body of the verification payload, mirroring the object
assembled field by field in the source. -/
def regPayloadJson (c : RegPayload) : JsonV :=
  JsonV.obj
    ([("id", JsonV.str c.id),
      ("rawId", JsonV.str c.rawId),
      ("type", JsonV.str c.type)] ++
     (match c.response with
      | none => []
      | some r =>
        [("response", JsonV.obj
          [("clientDataJSON", JsonV.str r.clientDataJSON),
           ("attestationObject", JsonV.str r.attestationObject)])]))

/-- Environment of one registration ceremony: the outcome of the
`/auth/registerRequest` exchange (its body projected to the fields the
code reads), the platform create capability, and the outcome of the
`/auth/registerResponse` exchange. -/
structure RegEnv where
  optionsRes : Except JsErr RegOptionsW
  create : RegOptionsD → Except JsErr CreatedCredential
  verifyRes : Except JsErr JsonV

/-- Embedding of `registerCredential`: fetch options, decode in place,
create the credential, re-encode it, persist `credential.id` under
`"credId"`, then submit the verification payload. Every rejection
propagates and ends the trace at that point. -/
def registerCredential (env : RegEnv) (st : Storage) : RunResult JsonV :=
  let tr0 := [Effect.fetch "/auth/registerRequest" (some registerRequestOpts)]
  match env.optionsRes with
  | .error e => { result := .error e, storage := st, trace := tr0 }
  | .ok options =>
    match decodeRegOptions options with
    | .error e => { result := .error e, storage := st, trace := tr0 }
    | .ok dopts =>
      let tr1 := tr0 ++ [Effect.platformCreate dopts]
      match env.create dopts with
      | .error e => { result := .error e, storage := st, trace := tr1 }
      | .ok cred =>
        let credential := encodeRegCredential cred
        let st1 := storageSetItem st "credId" credential.id
        let tr2 := tr1 ++
          [Effect.storageSetItem "credId" credential.id,
           Effect.fetch "/auth/registerResponse" (some (regPayloadJson credential))]
        { result := env.verifyRes, storage := st1, trace := tr2 }

/-! ## Unregistration (`unregisterCredential`, client.js lines 110-113) -/

/-- Embedding of `unregisterCredential`: remove the `"credId"` slot,
then request removal by identifier in the query string with the default
empty payload. `removeRes` is the outcome of the `/auth/removeKey`
exchange. -/
def unregisterCredential (credId : String) (removeRes : Except JsErr JsonV)
    (st : Storage) : RunResult JsonV :=
  let st1 := storageRemoveItem st "credId"
  { result := removeRes
    storage := st1
    trace := [Effect.storageRemoveItem "credId",
              Effect.fetch ("/auth/removeKey?credId=" ++ encodeURIComponent credId) none] }

/-! ## Authentication flow (`authenticate`, client.js lines 120-172) -/

/-- The signin-request URL: the persisted identifier is attached as a
query parameter only when present and non-empty (the source tests the
value for truthiness). -/
def signinRequestUrl (st : Storage) : String :=
  match storageGetItem st "credId" with
  | some c =>
    if c = "" then "/auth/signinRequest"
    else "/auth/signinRequest?credId=" ++ encodeURIComponent c
  | none => "/auth/signinRequest"

/-- The re-encoded assertion response bundle (string fields). -/
structure AssertionResponseW where
  clientDataJSON : String
  authenticatorData : String
  signature : String
  userHandle : String
deriving DecidableEq

/-- The verification payload assembled from an obtained credential
(client.js lines 153-169). -/
structure AuthPayload where
  id : String
  type : String
  rawId : String
  response : Option AssertionResponseW
deriving DecidableEq

/-- Re-encode the obtained credential to the verification payload. -/
def encodeAuthCredential (cred : ObtainedCredential) : AuthPayload :=
  { id := cred.id
    type := cred.type
    rawId := base64urlEncode cred.rawId
    response := cred.response.map (fun r =>
      { clientDataJSON := base64urlEncode r.clientDataJSON
        authenticatorData := base64urlEncode r.authenticatorData
        signature := base64urlEncode r.signature
        userHandle := base64urlEncode r.userHandle }) }

/-- The JSON body of the assertion verification payload. -/
def authPayloadJson (c : AuthPayload) : JsonV :=
  JsonV.obj
    ([("id", JsonV.str c.id),
      ("type", JsonV.str c.type),
      ("rawId", JsonV.str c.rawId)] ++
     (match c.response with
      | none => []
      | some r =>
        [("response", JsonV.obj
          [("clientDataJSON", JsonV.str r.clientDataJSON),
           ("authenticatorData", JsonV.str r.authenticatorData),
           ("signature", JsonV.str r.signature),
           ("userHandle", JsonV.str r.userHandle)])]))

/-- Environment of one authentication ceremony: the outcome of the
`/auth/signinRequest` exchange, the platform get capability, and the
outcome of the `/auth/signinResponse` exchange. -/
structure AuthEnv where
  optionsRes : Except JsErr AuthOptionsW
  get : AuthOptionsD → Except JsErr ObtainedCredential
  verifyRes : Except JsErr JsonV

/-- Embedding of `authenticate`: read the persisted identifier, fetch
options (payload is the empty object literal `opts`), short-circuit to a
null result when `allowCredentials` is empty, otherwise decode the
challenge and every allow-list identifier, invoke the platform get
capability, re-encode the result, and submit it for verification. -/
def authenticate (env : AuthEnv) (st : Storage) : RunResult JsonV :=
  let tr0 := [Effect.storageGetItem "credId",
              Effect.fetch (signinRequestUrl st) (some (JsonV.obj []))]
  match env.optionsRes with
  | .error e => { result := .error e, storage := st, trace := tr0 }
  | .ok options =>
    if options.allowCredentials.length = 0 then
      { result := .ok JsonV.null, storage := st,
        trace := tr0 ++ [Effect.consoleInfo "No registered credentials found."] }
    else
      match decodeField options.challenge with
      | .error e => { result := .error e, storage := st, trace := tr0 }
      | .ok ch =>
        match decodeCredIds options.allowCredentials with
        | .error e => { result := .error e, storage := st, trace := tr0 }
        | .ok ids =>
          let dopts : AuthOptionsD := { challenge := ch, allowCredentials := ids }
          let tr1 := tr0 ++ [Effect.platformGet dopts]
          match env.get dopts with
          | .error e => { result := .error e, storage := st, trace := tr1 }
          | .ok cred =>
            let credential := encodeAuthCredential cred
            let tr2 := tr1 ++
              [Effect.fetch "/auth/signinResponse" (some (authPayloadJson credential))]
            { result := env.verifyRes, storage := st, trace := tr2 }

/-! ## Helper lemmas -/

/-- Reading a key right after writing it yields the written value. -/
theorem storageGetItem_setItem (st : Storage) (k v : String) :
    storageGetItem (storageSetItem st k v) k = some v := by
  simp [storageGetItem, storageSetItem, List.find?]

/-- Reading a key right after removing it yields nothing. -/
theorem storageGetItem_removeItem (st : Storage) (k : String) :
    storageGetItem (storageRemoveItem st k) k = none := by
  unfold storageGetItem storageRemoveItem
  induction st with
  | nil => rfl
  | cons p rest ih =>
    by_cases h : p.1 == k <;> simp [List.filter_cons, h, List.find?_cons, ih]

/-- A failing field decode throws the decode-failure error kind. -/
theorem decodeField_error_malformed {s : String} {e : JsErr}
    (h : decodeField s = Except.error e) : isMalformedErr e = true := by
  unfold decodeField at h
  cases hb : base64urlDecode s with
  | some b => rw [hb] at h; cases h
  | none =>
    rw [hb] at h
    injection h with h
    subst h
    rfl

/-- A failing identifier-list decode throws the decode-failure error kind. -/
theorem decodeCredIds_error_malformed : ∀ {l : List String} {e : JsErr},
    decodeCredIds l = Except.error e → isMalformedErr e = true := by
  intro l
  induction l with
  | nil => intro e h; cases h
  | cons c rest ih =>
    intro e h
    cases hf : decodeField c with
    | error e1 =>
      simp only [decodeCredIds, hf, bind, Except.bind, Except.error.injEq] at h
      subst h
      exact decodeField_error_malformed hf
    | ok b =>
      cases hr : decodeCredIds rest with
      | error e2 =>
        simp only [decodeCredIds, hf, hr, bind, Except.bind, Except.error.injEq] at h
        subst h
        exact ih hr
      | ok bs =>
        simp only [decodeCredIds, hf, hr, bind, Except.bind] at h
        cases h

/-- A failing registration-options decode throws the decode-failure error kind. -/
theorem decodeRegOptions_error_malformed {o : RegOptionsW} {e : JsErr}
    (h : decodeRegOptions o = Except.error e) : isMalformedErr e = true := by
  unfold decodeRegOptions at h
  cases hu : decodeField o.userId with
  | error e1 =>
    simp only [hu, bind, Except.bind, Except.error.injEq] at h
    subst h
    exact decodeField_error_malformed hu
  | ok uid =>
    cases hc : decodeField o.challenge with
    | error e2 =>
      simp only [hu, hc, bind, Except.bind, Except.error.injEq] at h
      subst h
      exact decodeField_error_malformed hc
    | ok ch =>
      cases hex : o.excludeCredentials with
      | none =>
        simp only [hu, hc, hex, bind, Except.bind] at h
        cases h
      | some creds =>
        cases hd : decodeCredIds creds with
        | error e3 =>
          simp only [hu, hc, hex, hd, bind, Except.bind, Except.error.injEq] at h
          subst h
          exact decodeCredIds_error_malformed hd
        | ok ids =>
          simp only [hu, hc, hex, hd, bind, Except.bind] at h
          cases h

/-- A successful identifier-list decode preserves the list length. -/
theorem decodeCredIds_length : ∀ {l : List String} {ids : List Bin},
    decodeCredIds l = Except.ok ids → ids.length = l.length := by
  intro l
  induction l with
  | nil => intro ids h; cases h; rfl
  | cons c rest ih =>
    intro ids h
    cases hf : decodeField c with
    | error e1 =>
      simp only [decodeCredIds, hf, bind, Except.bind] at h
      cases h
    | ok b =>
      cases hr : decodeCredIds rest with
      | error e2 =>
        simp only [decodeCredIds, hf, hr, bind, Except.bind] at h
        cases h
      | ok bs =>
        simp only [decodeCredIds, hf, hr, bind, Except.bind, Except.ok.injEq] at h
        subst h
        simp [ih hr]

/-- C1: in every authentication ceremony whose server-returned options
carry an empty allowCredentials list, authenticate resolves with null
and never invokes the platform get capability. -/
theorem authenticate_empty_allowlist_resolves_null
    (env : AuthEnv) (st : Storage) (o : AuthOptionsW)
    (h1 : env.optionsRes = Except.ok o)
    (h2 : o.allowCredentials = []) :
    (authenticate env st).result = Except.ok JsonV.null ∧
    platformGetCalls (authenticate env st).trace = [] := by
  unfold authenticate
  rw [h1]
  simp [h2, platformGetCalls]

/-- Witness for C1 at a concrete environment. -/
def authEnvC1 : AuthEnv :=
  { optionsRes := Except.ok { challenge := "Y2hhbGxlbmdl", allowCredentials := [] }
    get := fun _ => Except.error (JsErr.platform "cancelled")
    verifyRes := Except.ok JsonV.null }

theorem authenticate_empty_allowlist_resolves_null_witness :
    (authenticate authEnvC1 []).result = Except.ok JsonV.null ∧
    platformGetCalls (authenticate authEnvC1 []).trace = [] :=
  authenticate_empty_allowlist_resolves_null authEnvC1 []
    { challenge := "Y2hhbGxlbmdl", allowCredentials := [] } rfl rfl

/-- C3: for every input identifier and every starting storage,
unregisterCredential clears the persisted credential-identifier slot,
issues exactly one removal request to the server, and resolves with the
transport outcome (in particular it does not raise when nothing was
persisted). -/
theorem unregister_clears_and_requests_once
    (credId : String) (removeRes : Except JsErr JsonV) (st : Storage) :
    storageGetItem (unregisterCredential credId removeRes st).storage "credId" = none ∧
    fetchCalls (unregisterCredential credId removeRes st).trace =
      [("/auth/removeKey?credId=" ++ encodeURIComponent credId, none)] ∧
    (unregisterCredential credId removeRes st).result = removeRes :=
  ⟨storageGetItem_removeItem st "credId", rfl, rfl⟩

/-- C4: the transport adapter resolves with the parsed body on status
200 and on any non-200 status rejects with the body error field, with
the same outcome at every non-200 status. -/
theorem fetch_status_dichotomy
    (path : String) (payload : Option JsonV) (b : JsonV) (s : Nat)
    (hs : s ≠ 200) :
    (_fetch path payload { status := 200, body := b }).2 = Except.ok b ∧
    (_fetch path payload { status := s, body := b }).2 =
      Except.error (JsErr.transport (jgetField b "error")) ∧
    (_fetch path payload { status := s, body := b }).2 =
      (_fetch path payload { status := 500, body := b }).2 := by
  unfold _fetch
  simp [hs]

theorem fetch_status_dichotomy_witness :
    (_fetch "/auth/registerResponse" none
      { status := 200, body := JsonV.obj [("error", JsonV.str "bad challenge")] }).2 =
      Except.ok (JsonV.obj [("error", JsonV.str "bad challenge")]) ∧
    (_fetch "/auth/registerResponse" none
      { status := 404, body := JsonV.obj [("error", JsonV.str "bad challenge")] }).2 =
      Except.error (JsErr.transport
        (jgetField (JsonV.obj [("error", JsonV.str "bad challenge")]) "error")) ∧
    (_fetch "/auth/registerResponse" none
      { status := 404, body := JsonV.obj [("error", JsonV.str "bad challenge")] }).2 =
    (_fetch "/auth/registerResponse" none
      { status := 500, body := JsonV.obj [("error", JsonV.str "bad challenge")] }).2 :=
  fetch_status_dichotomy "/auth/registerResponse" none
    (JsonV.obj [("error", JsonV.str "bad challenge")]) 404 (by decide)

/-- C5: the removal request carries the identifier in the query string
and has no request body (the default empty payload, sent without a JSON
content-type marker). -/
theorem unregister_request_shape
    (credId : String) (removeRes : Except JsErr JsonV) (st : Storage) :
    fetchCalls (unregisterCredential credId removeRes st).trace =
      [("/auth/removeKey?credId=" ++ encodeURIComponent credId, none)] ∧
    (fetchRequestOf ("/auth/removeKey?credId=" ++ encodeURIComponent credId) none).body =
      none ∧
    (fetchRequestOf ("/auth/removeKey?credId=" ++ encodeURIComponent credId) none).contentTypeJson =
      false :=
  ⟨rfl, rfl, rfl⟩

/-- C2: in every registration ceremony that reaches the encoding step,
the credId slot is written exactly once with the new credential id,
before the verification request, and the final storage is that write
regardless of the verification outcome (no rollback). -/
theorem register_persists_before_verify
    (env : RegEnv) (st : Storage) (o : RegOptionsW) (d : RegOptionsD)
    (cred : CreatedCredential)
    (h1 : env.optionsRes = Except.ok o)
    (h2 : decodeRegOptions o = Except.ok d)
    (h3 : env.create d = Except.ok cred) :
    (registerCredential env st).trace =
      [Effect.fetch "/auth/registerRequest" (some registerRequestOpts),
       Effect.platformCreate d,
       Effect.storageSetItem "credId" cred.id,
       Effect.fetch "/auth/registerResponse"
         (some (regPayloadJson (encodeRegCredential cred)))] ∧
    (registerCredential env st).storage = storageSetItem st "credId" cred.id ∧
    storageGetItem (registerCredential env st).storage "credId" = some cred.id ∧
    (registerCredential env st).result = env.verifyRes := by
  unfold registerCredential
  simp [h1, h2, h3, encodeRegCredential, storageGetItem_setItem]

def regEnvC2 : RegEnv :=
  { optionsRes := Except.ok
      { userId := "dXNlcg", challenge := "Y2hhbGxlbmdl", excludeCredentials := some [] }
    create := fun _ => Except.ok
      { id := "abc", rawId := [1, 2, 3], type := "public-key"
        response := some { clientDataJSON := [4], attestationObject := [5] } }
    verifyRes := Except.error (JsErr.transport (some (JsonV.str "verification failed"))) }

theorem register_persists_before_verify_witness :
    (registerCredential regEnvC2 []).trace =
      [Effect.fetch "/auth/registerRequest" (some registerRequestOpts),
       Effect.platformCreate
         { userId := [117, 115, 101, 114]
           challenge := [99, 104, 97, 108, 108, 101, 110, 103, 101]
           excludeCredentials := some [] },
       Effect.storageSetItem "credId" "abc",
       Effect.fetch "/auth/registerResponse"
         (some (regPayloadJson (encodeRegCredential
           { id := "abc", rawId := [1, 2, 3], type := "public-key"
             response := some { clientDataJSON := [4], attestationObject := [5] } })))] ∧
    (registerCredential regEnvC2 []).storage = storageSetItem [] "credId" "abc" ∧
    storageGetItem (registerCredential regEnvC2 []).storage "credId" = some "abc" ∧
    (registerCredential regEnvC2 []).result = regEnvC2.verifyRes :=
  register_persists_before_verify regEnvC2 []
    { userId := "dXNlcg", challenge := "Y2hhbGxlbmdl", excludeCredentials := some [] }
    { userId := [117, 115, 101, 114]
      challenge := [99, 104, 97, 108, 108, 101, 110, 103, 101]
      excludeCredentials := some [] }
    { id := "abc", rawId := [1, 2, 3], type := "public-key"
      response := some { clientDataJSON := [4], attestationObject := [5] } }
    rfl rfl rfl

/-- C6: every registration ceremony starts with a request to the
registration-options endpoint whose payload carries attestation none,
platform attachment, required user verification, and a false
resident-key preference (spelled requireResistantKey in the source). -/
theorem register_submits_fixed_params (env : RegEnv) (st : Storage) :
    (registerCredential env st).trace.head? =
      some (Effect.fetch "/auth/registerRequest" (some registerRequestOpts)) ∧
    jgetField registerRequestOpts "attestation" = some (JsonV.str "none") ∧
    (jgetField registerRequestOpts "authenticatorSelection").bind
      (fun a => jgetField a "authenticatorAttachment") = some (JsonV.str "platform") ∧
    (jgetField registerRequestOpts "authenticatorSelection").bind
      (fun a => jgetField a "userVerification") = some (JsonV.str "required") ∧
    (jgetField registerRequestOpts "authenticatorSelection").bind
      (fun a => jgetField a "requireResistantKey") = some (JsonV.bool false) := by
  refine ⟨?_, rfl, rfl, rfl, rfl⟩
  unfold registerCredential
  cases henv : env.optionsRes with
  | error e => rfl
  | ok o =>
    cases hd : decodeRegOptions o with
    | error e => simp [hd]
    | ok d =>
      cases hc : env.create d with
      | error e => simp [hd, hc]
      | ok c => simp [hd, hc]

/-- C7: after the options are fetched, the decode step gates the
platform create call: on success create is invoked exactly once with
the decoded options, and on failure the ceremony rejects with the
decode-failure error before any create call. -/
theorem register_decode_gates_create
    (env : RegEnv) (st : Storage) (o : RegOptionsW)
    (h1 : env.optionsRes = Except.ok o) :
    (match decodeRegOptions o with
     | Except.ok d => platformCreateCalls (registerCredential env st).trace = [d]
     | Except.error e =>
         isMalformedErr e = true ∧
         (registerCredential env st).result = Except.error e ∧
         platformCreateCalls (registerCredential env st).trace = []) := by
  cases hd : decodeRegOptions o with
  | error e =>
    refine ⟨decodeRegOptions_error_malformed hd, ?_, ?_⟩ <;>
      · unfold registerCredential
        simp [h1, hd, platformCreateCalls]
  | ok d =>
    unfold registerCredential
    simp only [h1, hd]
    cases hc : env.create d with
    | error e => rfl
    | ok c => rfl

def regEnvC7 : RegEnv :=
  { optionsRes := Except.ok
      { userId := "!bad", challenge := "Y2hhbGxlbmdl", excludeCredentials := none }
    create := fun _ => Except.error (JsErr.platform "unreachable")
    verifyRes := Except.ok JsonV.null }

theorem register_decode_gates_create_witness :
    (match decodeRegOptions
        { userId := "!bad", challenge := "Y2hhbGxlbmdl", excludeCredentials := none } with
     | Except.ok d => platformCreateCalls (registerCredential regEnvC7 []).trace = [d]
     | Except.error e =>
         isMalformedErr e = true ∧
         (registerCredential regEnvC7 []).result = Except.error e ∧
         platformCreateCalls (registerCredential regEnvC7 []).trace = []) :=
  register_decode_gates_create regEnvC7 []
    { userId := "!bad", challenge := "Y2hhbGxlbmdl", excludeCredentials := none } rfl

/-- C8: a created credential with an absent response bundle does not
fail the ceremony: the identifier is still persisted and the submitted
verification payload simply has no response field. -/
theorem register_missing_response_bundle_ok
    (env : RegEnv) (st : Storage) (o : RegOptionsW) (d : RegOptionsD)
    (cred : CreatedCredential)
    (h1 : env.optionsRes = Except.ok o)
    (h2 : decodeRegOptions o = Except.ok d)
    (h3 : env.create d = Except.ok cred)
    (h4 : cred.response = none) :
    (registerCredential env st).result = env.verifyRes ∧
    setItemCalls (registerCredential env st).trace = [("credId", cred.id)] ∧
    fetchCalls (registerCredential env st).trace =
      [("/auth/registerRequest", some registerRequestOpts),
       ("/auth/registerResponse", some (regPayloadJson (encodeRegCredential cred)))] ∧
    jgetField (regPayloadJson (encodeRegCredential cred)) "response" = none := by
  unfold registerCredential
  simp [h1, h2, h3, h4, setItemCalls, fetchCalls, encodeRegCredential, regPayloadJson,
    jgetField, List.find?]

def regEnvC8 : RegEnv :=
  { optionsRes := Except.ok
      { userId := "dXNlcg", challenge := "Y2hhbGxlbmdl", excludeCredentials := none }
    create := fun _ => Except.ok
      { id := "abc", rawId := [1, 2, 3], type := "public-key", response := none }
    verifyRes := Except.ok (JsonV.str "registered") }

theorem register_missing_response_bundle_ok_witness :
    (registerCredential regEnvC8 []).result = regEnvC8.verifyRes ∧
    setItemCalls (registerCredential regEnvC8 []).trace = [("credId", "abc")] ∧
    fetchCalls (registerCredential regEnvC8 []).trace =
      [("/auth/registerRequest", some registerRequestOpts),
       ("/auth/registerResponse", some (regPayloadJson (encodeRegCredential
         { id := "abc", rawId := [1, 2, 3], type := "public-key", response := none })))] ∧
    jgetField (regPayloadJson (encodeRegCredential
      { id := "abc", rawId := [1, 2, 3], type := "public-key", response := none }))
      "response" = none :=
  register_missing_response_bundle_ok regEnvC8 []
    { userId := "dXNlcg", challenge := "Y2hhbGxlbmdl", excludeCredentials := none }
    { userId := [117, 115, 101, 114]
      challenge := [99, 104, 97, 108, 108, 101, 110, 103, 101]
      excludeCredentials := none }
    { id := "abc", rawId := [1, 2, 3], type := "public-key", response := none }
    rfl rfl rfl rfl

/-- C9: with an empty allowCredentials list the challenge is never
decoded, so even a malformed challenge cannot raise the decode-failure
error and the ceremony resolves with null. -/
theorem authenticate_empty_ignores_malformed_challenge
    (env : AuthEnv) (st : Storage) (ch : String)
    (h1 : env.optionsRes = Except.ok { challenge := ch, allowCredentials := [] })
    (h2 : base64urlDecode ch = none) :
    (authenticate env st).result = Except.ok JsonV.null ∧
    resultIsMalformed (authenticate env st).result = false := by
  unfold authenticate
  simp [h1, resultIsMalformed, isMalformedErr]

def authEnvC9 : AuthEnv :=
  { optionsRes := Except.ok { challenge := "***", allowCredentials := [] }
    get := fun _ => Except.error (JsErr.platform "unreachable")
    verifyRes := Except.ok JsonV.null }

theorem authenticate_empty_ignores_malformed_challenge_witness :
    (authenticate authEnvC9 []).result = Except.ok JsonV.null ∧
    resultIsMalformed (authenticate authEnvC9 []).result = false :=
  authenticate_empty_ignores_malformed_challenge authEnvC9 [] "***" rfl rfl

/-- C10: for every non-empty allowCredentials list whose entries all
decode, the platform get capability is invoked once with the decoded
challenge and the whole decoded identifier list, one entry per
allow-list entry. -/
theorem authenticate_decodes_whole_allowlist
    (env : AuthEnv) (st : Storage) (o : AuthOptionsW) (ch : Bin) (ids : List Bin)
    (h1 : env.optionsRes = Except.ok o)
    (h2 : o.allowCredentials ≠ [])
    (h3 : decodeField o.challenge = Except.ok ch)
    (h4 : decodeCredIds o.allowCredentials = Except.ok ids) :
    platformGetCalls (authenticate env st).trace =
      [{ challenge := ch, allowCredentials := ids }] ∧
    ids.length = o.allowCredentials.length := by
  refine ⟨?_, decodeCredIds_length h4⟩
  have hlen : ¬o.allowCredentials.length = 0 := by
    intro h
    exact h2 (List.length_eq_zero.mp h)
  unfold authenticate
  simp only [h1, hlen, if_neg, h3, h4]
  cases hg : env.get { challenge := ch, allowCredentials := ids } with
  | error e => rfl
  | ok c => rfl

def authEnvC10 : AuthEnv :=
  { optionsRes := Except.ok
      { challenge := "Y2hhbGxlbmdl", allowCredentials := ["AAAA", "AAAB"] }
    get := fun _ => Except.ok
      { id := "abc", type := "public-key", rawId := [9]
        response := some
          { clientDataJSON := [1], authenticatorData := [2]
            signature := [3], userHandle := [4] } }
    verifyRes := Except.ok JsonV.null }

theorem authenticate_decodes_whole_allowlist_witness :
    platformGetCalls (authenticate authEnvC10 []).trace =
      [{ challenge := [99, 104, 97, 108, 108, 101, 110, 103, 101]
         allowCredentials := [[0, 0, 0], [0, 0, 1]] }] ∧
    ([[0, 0, 0], [0, 0, 1]] : List Bin).length =
      (["AAAA", "AAAB"] : List String).length :=
  authenticate_decodes_whole_allowlist authEnvC10 []
    { challenge := "Y2hhbGxlbmdl", allowCredentials := ["AAAA", "AAAB"] }
    [99, 104, 97, 108, 108, 101, 110, 103, 101]
    [[0, 0, 0], [0, 0, 1]]
    rfl (by decide) rfl rfl
